import Mathlib

/-!
Verification of the cadence domain-audit core: the snapshot codec
(`compression.go`), the write-time change summarizer and read-time failover
differ (`comparison.go`), and the filter predicate / get path of the frontend
handler.  Go maps are modelled as association lists whose keys are unique in
well-formed values; a `nil` Go map behaves exactly like an empty one for both
lookup and iteration, so it is modelled as `[]`.  Go pointers are modelled as
`Option`.
-/

namespace Cadence

/-- Association-list lookup keyed on the first component, modelling Go map
indexing (`v, ok := m[k]`). -/
def assocLookup (k : String) : List (String × α) → Option α
  | [] => none
  | (k₁, v) :: rest => if k₁ = k then some v else assocLookup k rest

/-- `types.ActiveClusterInfo`: cluster name plus failover version. -/
structure ActiveClusterInfo where
  activeClusterName : String
  failoverVersion : Int
deriving DecidableEq

/-- `types.ClusterAttributeScope`: the per-scope attribute mapping. -/
structure ClusterAttributeScope where
  clusterAttributes : List (String × ActiveClusterInfo)
deriving DecidableEq

/-- `types.ActiveClusters`: scope name to per-scope attribute mapping. -/
structure ActiveClusters where
  attributeScopes : List (String × ClusterAttributeScope)
deriving DecidableEq

/-- `types.ClusterAttribute`: a (scope, name) pair. -/
structure ClusterAttribute where
  scope : String
  name : String
deriving DecidableEq

/-- `types.ClusterFailover`: one ownership transition record. -/
structure ClusterFailover where
  fromCluster : Option ActiveClusterInfo
  toCluster : Option ActiveClusterInfo
  clusterAttribute : Option ClusterAttribute
  isDefaultCluster : Option Bool
deriving DecidableEq

/-- `persistence.DomainInfo` (the fields the spec calls essential). -/
structure DomainInfo where
  id : String
  name : String
deriving DecidableEq

/-- `persistence.DomainConfig` (retention policy). -/
structure DomainConfig where
  retention : Int
deriving DecidableEq

/-- `persistence.DomainReplicationConfig`: default active-cluster name plus the
optional nested attribute mapping. -/
structure DomainReplicationConfig where
  activeClusterName : String
  activeClusters : Option ActiveClusters
deriving DecidableEq

/-- `persistence.GetDomainResponse`: the configuration snapshot. -/
structure GetDomainResponse where
  info : Option DomainInfo
  config : Option DomainConfig
  replicationConfig : Option DomainReplicationConfig
deriving DecidableEq

/-- `audit.ClusterAttributeRef`. -/
structure ClusterAttributeRef where
  scope : String
  name : String
deriving DecidableEq

/-- `audit.ChangeSummary`. -/
structure ChangeSummary where
  changedFields : List String
  defaultClusterChanged : Bool
  clusterAttributesChanged : List ClusterAttributeRef
deriving DecidableEq

/-! ## comparison.go -/

/-- `audit.compareClusterAttributes`: iterate `after`'s scopes, skip scopes
missing from `before`, then iterate `after`'s attributes of the scope, skip
names missing on the `before` side, and record a ref when the owning cluster
names differ. -/
def compareClusterAttributes (before after : Option ActiveClusters) :
    List ClusterAttributeRef :=
  match before, after with
  | some b, some a =>
    a.attributeScopes.flatMap (fun scopeEntry =>
      match assocLookup scopeEntry.1 b.attributeScopes with
      | none => []
      | some beforeScopeData =>
        scopeEntry.2.clusterAttributes.flatMap (fun attrEntry =>
          match assocLookup attrEntry.1 beforeScopeData.clusterAttributes with
          | none => []
          | some beforeInfo =>
            if beforeInfo.activeClusterName ≠ attrEntry.2.activeClusterName then
              [{ scope := scopeEntry.1, name := attrEntry.1 }]
            else []))
  | _, _ => []

/-- `audit.ComputeChangeSummary`: default-cluster check plus the write-time
attribute comparison, both only when both replication configs are present.
The Go function's error result (always `nil`) is the second component. -/
def ComputeChangeSummary (before after : GetDomainResponse) :
    ChangeSummary × Option String :=
  let s₀ : ChangeSummary :=
    { changedFields := [], defaultClusterChanged := false,
      clusterAttributesChanged := [] }
  match before.replicationConfig, after.replicationConfig with
  | some brc, some arc =>
    let s₁ :=
      if brc.activeClusterName ≠ arc.activeClusterName then
        { s₀ with changedFields := s₀.changedFields ++ ["ActiveClusterName"],
                  defaultClusterChanged := true }
      else s₀
    let changedAttrs := compareClusterAttributes brc.activeClusters arc.activeClusters
    let s₂ :=
      if changedAttrs ≠ [] then
        { s₁ with changedFields := s₁.changedFields ++ ["ActiveClusters"],
                  clusterAttributesChanged := changedAttrs }
      else s₁
    (s₂, none)
  | _, _ => (s₀, none)

/-- The scope names of one side's attribute mapping (empty when the
`ActiveClusters` pointer is nil). -/
def scopeKeys : Option ActiveClusters → List String
  | none => []
  | some ac => ac.attributeScopes.map Prod.fst

/-- The per-scope data one side resolves for a scope name
(`beforeScopeData, beforeExists = attrs.AttributeScopes[scope]`). -/
def resolvedScopeData (attrs : Option ActiveClusters) (scope : String) :
    Option ClusterAttributeScope :=
  attrs.bind (fun ac => assocLookup scope ac.attributeScopes)

/-- The attribute names one side contributes for a scope. -/
def scopeAttrNames (attrs : Option ActiveClusters) (scope : String) : List String :=
  ((resolvedScopeData attrs scope).map
    (fun d => d.clusterAttributes.map Prod.fst)).getD []

/-- The `ActiveClusterInfo` one side resolves for a (scope, name) pair. -/
def resolvedInfo (attrs : Option ActiveClusters) (scope name : String) :
    Option ActiveClusterInfo :=
  (resolvedScopeData attrs scope).bind
    (fun d => assocLookup name d.clusterAttributes)

/-- The owning-cluster name one side resolves for a (scope, name) pair; empty
when the pair is absent on that side. -/
def resolvedAttrCluster (attrs : Option ActiveClusters) (scope name : String) :
    String :=
  ((resolvedInfo attrs scope name).map (fun i => i.activeClusterName)).getD ""

/-- The failover version one side resolves for a (scope, name) pair; `0` when
the pair is absent on that side. -/
def resolvedAttrVersion (attrs : Option ActiveClusters) (scope name : String) :
    Int :=
  ((resolvedInfo attrs scope name).map (fun i => i.failoverVersion)).getD 0

/-- `audit.computeClusterAttributeChanges`: traverse the union of scope names,
then the union of attribute names per scope, resolving each side's cluster
name and version (zero values when absent) and emitting a record whenever the
cluster names differ.  The Go map-set traversal order is unspecified; the
model fixes the order as before-side keys followed by new after-side keys. -/
def computeClusterAttributeChanges (beforeAttrs afterAttrs : Option ActiveClusters) :
    List ClusterFailover :=
  let allScopes := (scopeKeys beforeAttrs ++ scopeKeys afterAttrs).dedup
  allScopes.flatMap (fun scope =>
    let allNames :=
      (scopeAttrNames beforeAttrs scope ++ scopeAttrNames afterAttrs scope).dedup
    allNames.flatMap (fun name =>
      if resolvedAttrCluster beforeAttrs scope name ≠
          resolvedAttrCluster afterAttrs scope name then
        [{ fromCluster := some { activeClusterName := resolvedAttrCluster beforeAttrs scope name,
                                 failoverVersion := resolvedAttrVersion beforeAttrs scope name },
           toCluster := some { activeClusterName := resolvedAttrCluster afterAttrs scope name,
                               failoverVersion := resolvedAttrVersion afterAttrs scope name },
           clusterAttribute := some { scope := scope, name := name },
           isDefaultCluster := some false }]
      else []))

/-- The default active-cluster name of a snapshot, empty when the replication
config is absent (`beforeCluster := ""` / `afterCluster := ""` in the source). -/
def defaultClusterName (s : GetDomainResponse) : String :=
  (s.replicationConfig.map (fun rc => rc.activeClusterName)).getD ""

/-- The attribute mapping of a snapshot (nil when either pointer is nil). -/
def snapshotAttrs (s : GetDomainResponse) : Option ActiveClusters :=
  s.replicationConfig.bind (fun rc => rc.activeClusters)

/-- `audit.ComputeClusterFailovers`: returns `[]` when both replication configs
are absent, otherwise the optional default-cluster record followed by all
attribute-level records.  The Go error result (always `nil`) is the second
component. -/
def ComputeClusterFailovers (before after : GetDomainResponse) :
    List ClusterFailover × Option String :=
  if before.replicationConfig = none ∧ after.replicationConfig = none then
    ([], none)
  else
    let beforeCluster := defaultClusterName before
    let afterCluster := defaultClusterName after
    let defaults : List ClusterFailover :=
      if beforeCluster ≠ afterCluster then
        [{ fromCluster := some { activeClusterName := beforeCluster, failoverVersion := 0 },
           toCluster := some { activeClusterName := afterCluster, failoverVersion := 0 },
           clusterAttribute := none,
           isDefaultCluster := some true }]
      else []
    (defaults ++ computeClusterAttributeChanges (snapshotAttrs before) (snapshotAttrs after),
     none)

/-- Well-formedness of an attribute mapping: Go map keys are unique at both
nesting levels. -/
def ActiveClustersWF : Option ActiveClusters → Prop
  | none => True
  | some ac =>
    (ac.attributeScopes.map Prod.fst).Nodup ∧
      ∀ p ∈ ac.attributeScopes, (p.2.clusterAttributes.map Prod.fst).Nodup

instance (x : Option ActiveClusters) : Decidable (ActiveClustersWF x) :=
  match x with
  | none => isTrue trivial
  | some _ => inferInstanceAs (Decidable (_ ∧ _))

/-- Well-formedness of a snapshot: its attribute mapping has unique keys. -/
def SnapshotWF (s : GetDomainResponse) : Prop :=
  ActiveClustersWF (snapshotAttrs s)

instance (s : GetDomainResponse) : Decidable (SnapshotWF s) :=
  inferInstanceAs (Decidable (ActiveClustersWF _))

/-- The `ActiveClusterInfo` a snapshot resolves for a (scope, name) pair
through its replication config's attribute mapping; `none` when any link of
the chain is absent. -/
def snapshotAttrInfo (s : GetDomainResponse) (scope name : String) :
    Option ActiveClusterInfo :=
  resolvedInfo (snapshotAttrs s) scope name

/-- Sample snapshot: default cluster `cluster1`, attribute `region/attr` owned
by `cluster1` at version 100. -/
def attrChangeBefore : GetDomainResponse :=
  { info := none, config := none,
    replicationConfig := some
      { activeClusterName := "cluster1",
        activeClusters := some
          { attributeScopes :=
              [("region",
                { clusterAttributes :=
                    [("attr", { activeClusterName := "cluster1",
                                failoverVersion := 100 })] })] } } }

/-- Sample snapshot: default cluster `cluster1`, attribute `region/attr` owned
by `cluster2` at version 101. -/
def attrChangeAfter : GetDomainResponse :=
  { info := none, config := none,
    replicationConfig := some
      { activeClusterName := "cluster1",
        activeClusters := some
          { attributeScopes :=
              [("region",
                { clusterAttributes :=
                    [("attr", { activeClusterName := "cluster2",
                                failoverVersion := 101 })] })] } } }

/-- Sample snapshot: attribute `region/attr` owned by `cluster1` at
version 200 — same owning cluster as `attrChangeBefore`, later version. -/
def versionOnlyAfter : GetDomainResponse :=
  { info := none, config := none,
    replicationConfig := some
      { activeClusterName := "cluster1",
        activeClusters := some
          { attributeScopes :=
              [("region",
                { clusterAttributes :=
                    [("attr", { activeClusterName := "cluster1",
                                failoverVersion := 200 })] })] } } }

/-- Sample snapshot: default cluster `cluster2`, attribute `region/attr` owned
by `cluster2` at version 101. -/
def mixedChangeAfter : GetDomainResponse :=
  { info := none, config := none,
    replicationConfig := some
      { activeClusterName := "cluster2",
        activeClusters := some
          { attributeScopes :=
              [("region",
                { clusterAttributes :=
                    [("attr", { activeClusterName := "cluster2",
                                failoverVersion := 101 })] })] } } }

/-! ## Snapshot codec

The snapshot codec composes two third-party collaborators that are not part
of this repository: the structured serializer (`encoding/json`) and the
lossless byte compressor (`snappy`).  Both are modelled from the spec as
executable byte-level codecs: the serializer writes a self-delimiting token
stream with a partial inverse, the compressor is a lossless invertible
framing that rejects anything outside its range. -/

/-- Modelled from the spec: serializer token for an `Int` (sign then
magnitude). -/
def encInt (i : Int) : List Nat :=
  [if i < 0 then 1 else 0, i.natAbs]

def readInt : List Nat → Option (Int × List Nat)
  | s :: m :: rest =>
    if s = 0 then some ((m : Int), rest)
    else if s = 1 then some (-(m : Int), rest)
    else none
  | _ => none

/-- Modelled from the spec: serializer token for a `Bool`. -/
def encBool (b : Bool) : List Nat :=
  [if b then 1 else 0]

def readBool : List Nat → Option (Bool × List Nat)
  | 0 :: rest => some (false, rest)
  | 1 :: rest => some (true, rest)
  | _ => none

/-- Modelled from the spec: serializer token for a `String` (length then
character codes). -/
def encString (s : String) : List Nat :=
  s.data.length :: s.data.map Char.toNat

def readString : List Nat → Option (String × List Nat)
  | [] => none
  | n :: rest =>
    if n ≤ rest.length then
      some (String.mk ((rest.take n).map Char.ofNat), rest.drop n)
    else none

/-- Modelled from the spec: serializer form of an optional value (a Go nil
pointer serializes as an absence marker). -/
def encOption (enc : α → List Nat) : Option α → List Nat
  | none => [0]
  | some a => 1 :: enc a

def readOption (rd : List Nat → Option (α × List Nat)) :
    List Nat → Option (Option α × List Nat)
  | 0 :: rest => some (none, rest)
  | 1 :: rest => (rd rest).map (fun p => (some p.1, p.2))
  | _ => none

def encListBody (enc : α → List Nat) : List α → List Nat
  | [] => []
  | a :: rest => enc a ++ encListBody enc rest

/-- Modelled from the spec: serializer form of a sequence (length-prefixed
element stream; a Go map serializes as the sequence of its entries). -/
def encList (enc : α → List Nat) (l : List α) : List Nat :=
  l.length :: encListBody enc l

def readListBody (rd : List Nat → Option (α × List Nat)) :
    Nat → List Nat → Option (List α × List Nat)
  | 0, l => some ([], l)
  | n + 1, l =>
    (rd l).bind (fun p =>
      (readListBody rd n p.2).map (fun q => (p.1 :: q.1, q.2)))

def readList (rd : List Nat → Option (α × List Nat)) :
    List Nat → Option (List α × List Nat)
  | [] => none
  | n :: rest => readListBody rd n rest

def encStrPair (enc : β → List Nat) (p : String × β) : List Nat :=
  encString p.1 ++ enc p.2

def readStrPair (rd : List Nat → Option (β × List Nat)) (l : List Nat) :
    Option ((String × β) × List Nat) :=
  (readString l).bind fun p => (rd p.2).map fun q => ((p.1, q.1), q.2)

def encActiveClusterInfo (i : ActiveClusterInfo) : List Nat :=
  encString i.activeClusterName ++ encInt i.failoverVersion

def readActiveClusterInfo (l : List Nat) :
    Option (ActiveClusterInfo × List Nat) :=
  (readString l).bind fun p =>
    (readInt p.2).map fun q =>
      ({ activeClusterName := p.1, failoverVersion := q.1 }, q.2)

def encClusterAttributeScope (s : ClusterAttributeScope) : List Nat :=
  encList (encStrPair encActiveClusterInfo) s.clusterAttributes

def readClusterAttributeScope (l : List Nat) :
    Option (ClusterAttributeScope × List Nat) :=
  (readList (readStrPair readActiveClusterInfo) l).map fun p =>
    ({ clusterAttributes := p.1 }, p.2)

def encActiveClusters (ac : ActiveClusters) : List Nat :=
  encList (encStrPair encClusterAttributeScope) ac.attributeScopes

def readActiveClusters (l : List Nat) : Option (ActiveClusters × List Nat) :=
  (readList (readStrPair readClusterAttributeScope) l).map fun p =>
    ({ attributeScopes := p.1 }, p.2)

def encDomainInfo (d : DomainInfo) : List Nat :=
  encString d.id ++ encString d.name

def readDomainInfo (l : List Nat) : Option (DomainInfo × List Nat) :=
  (readString l).bind fun p =>
    (readString p.2).map fun q => ({ id := p.1, name := q.1 }, q.2)

def encDomainConfig (c : DomainConfig) : List Nat :=
  encInt c.retention

def readDomainConfig (l : List Nat) : Option (DomainConfig × List Nat) :=
  (readInt l).map fun p => ({ retention := p.1 }, p.2)

def encDomainReplicationConfig (rc : DomainReplicationConfig) : List Nat :=
  encString rc.activeClusterName ++ encOption encActiveClusters rc.activeClusters

def readDomainReplicationConfig (l : List Nat) :
    Option (DomainReplicationConfig × List Nat) :=
  (readString l).bind fun p =>
    (readOption readActiveClusters p.2).map fun q =>
      ({ activeClusterName := p.1, activeClusters := q.1 }, q.2)

/-- Modelled from the spec: `encoding/json` marshalling of a snapshot to its
structured byte form. -/
def jsonMarshal (s : GetDomainResponse) : List Nat :=
  encOption encDomainInfo s.info ++
    encOption encDomainConfig s.config ++
    encOption encDomainReplicationConfig s.replicationConfig

/-- Modelled from the spec: `encoding/json` unmarshalling of a snapshot;
fails on bytes that are not valid structured data for the snapshot shape. -/
def jsonUnmarshal (l : List Nat) : Option GetDomainResponse :=
  (readOption readDomainInfo l).bind fun p =>
    (readOption readDomainConfig p.2).bind fun q =>
      (readOption readDomainReplicationConfig q.2).bind fun w =>
        match w.2 with
        | [] => some { info := p.1, config := q.1, replicationConfig := w.1 }
        | _ => none

/-- Modelled from the spec: the general-purpose lossless byte compressor
(Snappy): a tagged, length-framed encoding whose decoder recovers the exact
payload and rejects any byte string outside the encoder's range. -/
def snappyEncode (payload : List Nat) : List Nat :=
  83 :: payload.length :: payload

def snappyDecode : List Nat → Option (List Nat)
  | 83 :: n :: rest => if rest.length = n then some rest else none
  | _ => none

/-- `audit.SerializeAndCompress`: marshal to the structured byte form, then
compress.  (The Go marshalling error cannot occur for these snapshot
structures, so the function is total.) -/
def SerializeAndCompress (domain : GetDomainResponse) : List Nat :=
  snappyEncode (jsonMarshal domain)

/-- `audit.DecompressAndDeserialize`: decompress, then unmarshal; `none` is
the Go error result. -/
def DecompressAndDeserialize (compressed : List Nat) :
    Option GetDomainResponse :=
  (snappyDecode compressed).bind jsonUnmarshal

/-! ## Filter predicate and get path (frontend handler) -/

def encClusterAttributeRef (r : ClusterAttributeRef) : List Nat :=
  encString r.scope ++ encString r.name

def readClusterAttributeRef (l : List Nat) :
    Option (ClusterAttributeRef × List Nat) :=
  (readString l).bind fun p =>
    (readString p.2).map fun q => ({ scope := p.1, name := q.1 }, q.2)

def encChangeSummary (s : ChangeSummary) : List Nat :=
  encList encString s.changedFields ++
    encBool s.defaultClusterChanged ++
    encList encClusterAttributeRef s.clusterAttributesChanged

/-- Modelled from the spec: parsing of the persisted change-summary text
(`json.Unmarshal` into `audit.ChangeSummary`); fails on bytes that are not a
valid persisted summary. -/
def summaryUnmarshal (l : List Nat) : Option ChangeSummary :=
  (readList readString l).bind fun p =>
    (readBool p.2).bind fun q =>
      (readList readClusterAttributeRef q.2).bind fun w =>
        match w.2 with
        | [] => some { changedFields := p.1, defaultClusterChanged := q.1,
                       clusterAttributesChanged := w.1 }
        | _ => none

/-- `types.ListFailoverHistoryRequestFilters`, restricted to the fields the
predicate reads; `Attributes` entries are pointers and may be nil. -/
structure ListFailoverHistoryRequestFilters where
  defaultActiveCluster : Option Bool
  attributes : List (Option ClusterAttribute)

/-- `frontend.api.matchesAttributeFilter`: true when some non-nil requested
(scope, name) pair equals some changed ref. -/
def matchesAttributeFilter (changed : List ClusterAttributeRef)
    (requested : List (Option ClusterAttribute)) : Bool :=
  if changed.length = 0 then false
  else
    requested.any fun req =>
      match req with
      | none => false
      | some ca =>
        changed.any fun chg => chg.scope == ca.scope && chg.name == ca.name

/-- `frontend.api.shouldIncludeEvent`: fail-open on an unparsable summary,
exclude on a set default-cluster-only filter with no default change, exclude
on non-empty attribute filters with no match, otherwise include. -/
def shouldIncludeEvent (summaryBytes : List Nat)
    (filters : ListFailoverHistoryRequestFilters) : Bool :=
  match summaryUnmarshal summaryBytes with
  | none => true
  | some summary =>
    if filters.defaultActiveCluster = some true ∧
        summary.defaultClusterChanged = false then false
    else if 0 < filters.attributes.length ∧
        matchesAttributeFilter summary.clusterAttributesChanged
          filters.attributes = false then false
    else true

/-- `persistence.DomainAuditLogEntry`, restricted to the compressed snapshot
payloads the get path consumes. -/
structure DomainAuditLogEntry where
  stateBefore : List Nat
  stateAfter : List Nat

/-- `types.GetFailoverEventResponse`. -/
structure GetFailoverEventResponse where
  clusterFailovers : List ClusterFailover
deriving DecidableEq

/-- The error kinds the get path surfaces after a successful storage fetch. -/
inductive ServiceError where
  | internalService (message : String)
deriving DecidableEq

/-- `frontend.api.GetFailoverEvent`, after request validation and the storage
fetch: the storage reply is `none` for a nil response, `some none` for a
response carrying a nil entry; both decompressions must succeed before the
differ runs. -/
def GetFailoverEvent (entryResp : Option (Option DomainAuditLogEntry)) :
    Except ServiceError GetFailoverEventResponse :=
  match entryResp with
  | none => .ok { clusterFailovers := [] }
  | some none => .ok { clusterFailovers := [] }
  | some (some entry) =>
    match DecompressAndDeserialize entry.stateBefore with
    | none => .error (.internalService "Failed to decompress domain state")
    | some before =>
      match DecompressAndDeserialize entry.stateAfter with
      | none => .error (.internalService "Failed to decompress domain state")
      | some after =>
        match ComputeClusterFailovers before after with
        | (failovers, none) => .ok { clusterFailovers := failovers }
        | (_, some _) =>
          .error (.internalService "Failed to compute failover details")

/-- Sample change summary with both kinds of change recorded. -/
def sampleSummary : ChangeSummary :=
  { changedFields := ["ActiveClusterName", "ActiveClusters"],
    defaultClusterChanged := true,
    clusterAttributesChanged := [{ scope := "region", name := "attr" }] }

/-- Sample change summary with nothing changed. -/
def quietSummary : ChangeSummary :=
  { changedFields := [], defaultClusterChanged := false,
    clusterAttributesChanged := [] }

/-! ## Helper lemmas -/

theorem assocLookup_mem {α} {k : String} {v : α} :
    ∀ {l : List (String × α)}, assocLookup k l = some v → (k, v) ∈ l := by
  intro l
  induction l with
  | nil => intro h; simp [assocLookup] at h
  | cons hd tl ih =>
    intro h
    obtain ⟨k₁, v₁⟩ := hd
    by_cases hk : k₁ = k
    · subst hk
      simp [assocLookup] at h
      subst h
      exact List.mem_cons_self _ _
    · simp [assocLookup, hk] at h
      exact List.mem_cons_of_mem _ (ih h)

theorem assocLookup_of_mem_nodup {α} {l : List (String × α)}
    (h : (l.map Prod.fst).Nodup) {k : String} {v : α} (hm : (k, v) ∈ l) :
    assocLookup k l = some v := by
  induction l with
  | nil => simp at hm
  | cons hd tl ih =>
    obtain ⟨k₁, v₁⟩ := hd
    simp only [List.map_cons, List.nodup_cons] at h
    rcases List.mem_cons.mp hm with heq | hmem
    · obtain ⟨rfl, rfl⟩ := Prod.mk.injEq .. ▸ heq
      simp [assocLookup]
    · have hne : k₁ ≠ k := by
        intro hkk
        subst hkk
        exact h.1 (List.mem_map.mpr ⟨(k₁, v), hmem, rfl⟩)
      simpa [assocLookup, hne] using ih h.2 hmem

theorem mem_ite_singleton {α} {c : Prop} [Decidable c] {x r : α} :
    r ∈ (if c then [x] else ([] : List α)) ↔ c ∧ r = x := by
  split <;> simp_all

/-- Membership characterization of the attribute-level differ: a record is
emitted exactly for the (scope, name) pairs in the union of both sides' scope
and name sets whose resolved owning-cluster names differ. -/
theorem mem_computeClusterAttributeChanges
    {beforeAttrs afterAttrs : Option ActiveClusters} {r : ClusterFailover} :
    r ∈ computeClusterAttributeChanges beforeAttrs afterAttrs ↔
      ∃ scope name,
        scope ∈ scopeKeys beforeAttrs ++ scopeKeys afterAttrs ∧
        name ∈ scopeAttrNames beforeAttrs scope ++ scopeAttrNames afterAttrs scope ∧
        resolvedAttrCluster beforeAttrs scope name ≠
          resolvedAttrCluster afterAttrs scope name ∧
        r = { fromCluster := some { activeClusterName := resolvedAttrCluster beforeAttrs scope name,
                                    failoverVersion := resolvedAttrVersion beforeAttrs scope name },
              toCluster := some { activeClusterName := resolvedAttrCluster afterAttrs scope name,
                                  failoverVersion := resolvedAttrVersion afterAttrs scope name },
              clusterAttribute := some { scope := scope, name := name },
              isDefaultCluster := some false } := by
  simp only [computeClusterAttributeChanges, List.mem_flatMap, List.mem_dedup,
    mem_ite_singleton]
  constructor
  · rintro ⟨scope, hs, name, hn, hne, rfl⟩
    exact ⟨scope, name, hs, hn, hne, rfl⟩
  · rintro ⟨scope, name, hs, hn, hne, rfl⟩
    exact ⟨scope, hs, name, hn, hne, rfl⟩

theorem isDefault_false_of_mem_attrChanges
    {beforeAttrs afterAttrs : Option ActiveClusters} {r : ClusterFailover}
    (h : r ∈ computeClusterAttributeChanges beforeAttrs afterAttrs) :
    r.isDefaultCluster = some false := by
  obtain ⟨scope, name, -, -, -, rfl⟩ := mem_computeClusterAttributeChanges.mp h
  rfl

/-- Completeness of the write-time comparison: an attribute resolvable on both
sides whose owning-cluster names differ is always recorded (no well-formedness
needed). -/
theorem mem_compareClusterAttributes_of
    {before after : Option ActiveClusters} {scope name : String}
    {binfo ainfo : ActiveClusterInfo}
    (hb : resolvedInfo before scope name = some binfo)
    (ha : resolvedInfo after scope name = some ainfo)
    (hne : binfo.activeClusterName ≠ ainfo.activeClusterName) :
    ({ scope := scope, name := name } : ClusterAttributeRef) ∈
      compareClusterAttributes before after := by
  rcases before with _ | b
  · simp [resolvedInfo, resolvedScopeData] at hb
  rcases after with _ | a
  · simp [resolvedInfo, resolvedScopeData] at ha
  simp only [resolvedInfo, resolvedScopeData, Option.some_bind] at hb ha
  rcases hla : assocLookup scope a.attributeScopes with _ | ascopeData
  · rw [hla] at ha; simp at ha
  rw [hla] at ha
  simp only [Option.some_bind] at ha
  rcases hlb : assocLookup scope b.attributeScopes with _ | bscopeData
  · rw [hlb] at hb; simp at hb
  rw [hlb] at hb
  simp only [Option.some_bind] at hb
  simp only [compareClusterAttributes, List.mem_flatMap]
  refine ⟨(scope, ascopeData), assocLookup_mem hla, ?_⟩
  simp only [hlb, List.mem_flatMap]
  refine ⟨(name, ainfo), assocLookup_mem ha, ?_⟩
  simp only [hb, mem_ite_singleton]
  exact ⟨hne, trivial⟩

/-- Membership characterization of the write-time comparison: when the after
side is well-formed, a ref is recorded exactly for the (scope, name) pairs
resolvable on both sides whose owning-cluster names differ. -/
theorem mem_compareClusterAttributes
    {before after : Option ActiveClusters} (hwf : ActiveClustersWF after)
    {ref : ClusterAttributeRef} :
    ref ∈ compareClusterAttributes before after ↔
      ∃ binfo ainfo,
        resolvedInfo before ref.scope ref.name = some binfo ∧
        resolvedInfo after ref.scope ref.name = some ainfo ∧
        binfo.activeClusterName ≠ ainfo.activeClusterName := by
  constructor
  · intro hmem
    rcases before with _ | b
    · simp [compareClusterAttributes] at hmem
    rcases after with _ | a
    · simp [compareClusterAttributes] at hmem
    simp only [compareClusterAttributes, List.mem_flatMap] at hmem
    obtain ⟨⟨scope, ascopeData⟩, hsmem, hin⟩ := hmem
    rcases hlb : assocLookup scope b.attributeScopes with _ | bscopeData
    · rw [hlb] at hin; simp at hin
    rw [hlb] at hin
    simp only [List.mem_flatMap] at hin
    obtain ⟨⟨name, ainfo⟩, hamem, hin₂⟩ := hin
    rcases hlbi : assocLookup name bscopeData.clusterAttributes with _ | binfo
    · rw [hlbi] at hin₂; simp at hin₂
    rw [hlbi] at hin₂
    rw [mem_ite_singleton] at hin₂
    obtain ⟨hne, rfl⟩ := hin₂
    have h₁ : assocLookup scope a.attributeScopes = some ascopeData :=
      assocLookup_of_mem_nodup hwf.1 hsmem
    have h₂ : assocLookup name ascopeData.clusterAttributes = some ainfo :=
      assocLookup_of_mem_nodup (hwf.2 _ hsmem) hamem
    refine ⟨binfo, ainfo, ?_, ?_, hne⟩
    · simp [resolvedInfo, resolvedScopeData, hlb, hlbi]
    · simp [resolvedInfo, resolvedScopeData, h₁, h₂]
  · rintro ⟨binfo, ainfo, hb, ha, hne⟩
    have := mem_compareClusterAttributes_of hb ha hne
    cases ref
    exact this

/-- The summary's changed-attribute list is exactly the result of
`compareClusterAttributes` when both replication configs are present, and
empty otherwise. -/
theorem changeSummary_attrs (before after : GetDomainResponse) :
    (ComputeChangeSummary before after).1.clusterAttributesChanged =
      compareClusterAttributes (snapshotAttrs before) (snapshotAttrs after) ∨
      ((before.replicationConfig = none ∨ after.replicationConfig = none) ∧
        (ComputeChangeSummary before after).1.clusterAttributesChanged = []) := by
  simp only [ComputeChangeSummary, snapshotAttrs]
  rcases hb : before.replicationConfig with _ | brc
  · right; simp
  rcases ha : after.replicationConfig with _ | arc
  · right; simp
  left
  by_cases hname : brc.activeClusterName ≠ arc.activeClusterName <;>
    by_cases hattrs :
        compareClusterAttributes brc.activeClusters arc.activeClusters ≠ [] <;>
      simp_all

/-- The summary lists `"ActiveClusters"` exactly when it carries a non-empty
changed-attribute list. -/
theorem activeClusters_mem_changedFields (before after : GetDomainResponse) :
    "ActiveClusters" ∈ (ComputeChangeSummary before after).1.changedFields ↔
      (ComputeChangeSummary before after).1.clusterAttributesChanged ≠ [] := by
  simp only [ComputeChangeSummary]
  rcases before.replicationConfig with _ | brc
  · simp
  rcases after.replicationConfig with _ | arc
  · simp
  by_cases hname : brc.activeClusterName ≠ arc.activeClusterName <;>
    by_cases hattrs :
        compareClusterAttributes brc.activeClusters arc.activeClusters ≠ [] <;>
      simp_all

/-- A snapshot without a replication config resolves no attribute. -/
theorem snapshotAttrInfo_of_rc_none {s : GetDomainResponse}
    (h : s.replicationConfig = none) (scope name : String) :
    snapshotAttrInfo s scope name = none := by
  simp [snapshotAttrInfo, snapshotAttrs, resolvedInfo, resolvedScopeData, h]

/-! ### Codec round-trip lemmas -/

theorem readInt_enc (i : Int) (r : List Nat) :
    readInt (encInt i ++ r) = some (i, r) := by
  by_cases h : i < 0
  · have h₁ : encInt i ++ r = 1 :: i.natAbs :: r := by simp [encInt, h]
    have h₂ : -(i.natAbs : Int) = i := by omega
    rw [h₁]
    simp [readInt]
    rw [abs_of_neg h, neg_neg]
  · have h₁ : encInt i ++ r = 0 :: i.natAbs :: r := by simp [encInt, h]
    rw [h₁]
    simp [readInt]
    omega

theorem readBool_enc (b : Bool) (r : List Nat) :
    readBool (encBool b ++ r) = some (b, r) := by
  cases b <;> rfl

theorem readString_enc (s : String) (r : List Nat) :
    readString (encString s ++ r) = some (s, r) := by
  have hl : (s.data.map Char.toNat).length = s.data.length := by simp
  simp only [encString, List.cons_append, readString]
  rw [if_pos (by simp)]
  rw [show (s.data.map Char.toNat ++ r).take s.data.length = s.data.map Char.toNat by
        rw [← hl]; exact List.take_left _ _,
      show (s.data.map Char.toNat ++ r).drop s.data.length = r by
        rw [← hl]; exact List.drop_left _ _]
  have hmap : List.map (Char.ofNat ∘ Char.toNat) s.data = s.data := by
    simp [Function.comp_def, Char.ofNat_toNat]
  simp [List.map_map, hmap]

theorem readOption_enc {α} {enc : α → List Nat}
    {rd : List Nat → Option (α × List Nat)}
    (h : ∀ a r, rd (enc a ++ r) = some (a, r)) (o : Option α) (r : List Nat) :
    readOption rd (encOption enc o ++ r) = some (o, r) := by
  cases o with
  | none => rfl
  | some a =>
    simp only [encOption, List.cons_append, readOption]
    rw [h a r]
    rfl

theorem readListBody_enc {α} {enc : α → List Nat}
    {rd : List Nat → Option (α × List Nat)}
    (h : ∀ a r, rd (enc a ++ r) = some (a, r)) :
    ∀ (l : List α) (r : List Nat),
      readListBody rd l.length (encListBody enc l ++ r) = some (l, r) := by
  intro l
  induction l with
  | nil => intro r; rfl
  | cons a tl ih =>
    intro r
    simp only [List.length_cons, encListBody, List.append_assoc, readListBody]
    rw [h a (encListBody enc tl ++ r)]
    simp only [Option.some_bind]
    rw [ih r]
    rfl

theorem readList_enc {α} {enc : α → List Nat}
    {rd : List Nat → Option (α × List Nat)}
    (h : ∀ a r, rd (enc a ++ r) = some (a, r)) (l : List α) (r : List Nat) :
    readList rd (encList enc l ++ r) = some (l, r) := by
  simp only [encList, List.cons_append, readList]
  exact readListBody_enc h l r

theorem readStrPair_enc {β} {enc : β → List Nat}
    {rd : List Nat → Option (β × List Nat)}
    (h : ∀ b r, rd (enc b ++ r) = some (b, r)) (p : String × β) (r : List Nat) :
    readStrPair rd (encStrPair enc p ++ r) = some (p, r) := by
  simp only [encStrPair, List.append_assoc, readStrPair]
  rw [readString_enc]
  simp only [Option.some_bind]
  rw [h p.2 r]
  rfl

theorem readActiveClusterInfo_enc (i : ActiveClusterInfo) (r : List Nat) :
    readActiveClusterInfo (encActiveClusterInfo i ++ r) = some (i, r) := by
  simp only [encActiveClusterInfo, List.append_assoc, readActiveClusterInfo]
  rw [readString_enc]
  simp only [Option.some_bind]
  rw [readInt_enc]
  rfl

theorem readClusterAttributeScope_enc (s : ClusterAttributeScope) (r : List Nat) :
    readClusterAttributeScope (encClusterAttributeScope s ++ r) = some (s, r) := by
  simp only [encClusterAttributeScope, readClusterAttributeScope]
  rw [readList_enc (readStrPair_enc readActiveClusterInfo_enc)]
  rfl

theorem readActiveClusters_enc (ac : ActiveClusters) (r : List Nat) :
    readActiveClusters (encActiveClusters ac ++ r) = some (ac, r) := by
  simp only [encActiveClusters, readActiveClusters]
  rw [readList_enc (readStrPair_enc readClusterAttributeScope_enc)]
  rfl

theorem readDomainInfo_enc (d : DomainInfo) (r : List Nat) :
    readDomainInfo (encDomainInfo d ++ r) = some (d, r) := by
  simp only [encDomainInfo, List.append_assoc, readDomainInfo]
  rw [readString_enc]
  simp only [Option.some_bind]
  rw [readString_enc]
  rfl

theorem readDomainConfig_enc (c : DomainConfig) (r : List Nat) :
    readDomainConfig (encDomainConfig c ++ r) = some (c, r) := by
  simp only [encDomainConfig, readDomainConfig]
  rw [readInt_enc]
  rfl

theorem readDomainReplicationConfig_enc (rc : DomainReplicationConfig)
    (r : List Nat) :
    readDomainReplicationConfig (encDomainReplicationConfig rc ++ r) =
      some (rc, r) := by
  simp only [encDomainReplicationConfig, List.append_assoc,
    readDomainReplicationConfig]
  rw [readString_enc]
  simp only [Option.some_bind]
  rw [readOption_enc readActiveClusters_enc]
  rfl

theorem jsonUnmarshal_marshal (s : GetDomainResponse) :
    jsonUnmarshal (jsonMarshal s) = some s := by
  simp only [jsonMarshal, List.append_assoc, jsonUnmarshal]
  rw [show encOption encDomainInfo s.info ++
        (encOption encDomainConfig s.config ++
          encOption encDomainReplicationConfig s.replicationConfig) =
      encOption encDomainInfo s.info ++
        (encOption encDomainConfig s.config ++
          (encOption encDomainReplicationConfig s.replicationConfig ++ [])) by
    simp]
  rw [readOption_enc readDomainInfo_enc]
  simp only [Option.some_bind]
  rw [readOption_enc readDomainConfig_enc]
  simp only [Option.some_bind]
  rw [readOption_enc readDomainReplicationConfig_enc]
  rfl

theorem snappyDecode_enc (payload : List Nat) :
    snappyDecode (snappyEncode payload) = some payload := by
  simp [snappyEncode, snappyDecode]

theorem summaryUnmarshal_enc (s : ChangeSummary) :
    summaryUnmarshal (encChangeSummary s) = some s := by
  simp only [encChangeSummary, List.append_assoc, summaryUnmarshal]
  rw [show encList encString s.changedFields ++
        (encBool s.defaultClusterChanged ++
          encList encClusterAttributeRef s.clusterAttributesChanged) =
      encList encString s.changedFields ++
        (encBool s.defaultClusterChanged ++
          (encList encClusterAttributeRef s.clusterAttributesChanged ++ [])) by
    simp]
  rw [readList_enc readString_enc]
  simp only [Option.some_bind]
  rw [readBool_enc]
  simp only [Option.some_bind]
  rw [readList_enc (fun a r => by
    simp only [encClusterAttributeRef, List.append_assoc, readClusterAttributeRef]
    rw [readString_enc]
    simp only [Option.some_bind]
    rw [readString_enc]
    rfl)]
  rfl

/-! ## Claim theorems -/

/-- C1: `ComputeClusterFailovers`'s attribute pass emits a record for exactly
those (scope, name) pairs in the union of both sides' scope sets and
attribute-name sets whose resolved owning-cluster names differ; each record
carries each side's cluster name and failover version (empty name / version 0
when the pair is absent on that side), `ClusterAttribute = {scope, name}` and
`IsDefaultCluster = false`. -/
theorem computeClusterAttributeChanges_union_spec
    (beforeAttrs afterAttrs : Option ActiveClusters) (r : ClusterFailover) :
    r ∈ computeClusterAttributeChanges beforeAttrs afterAttrs ↔
      ∃ scope name,
        scope ∈ scopeKeys beforeAttrs ++ scopeKeys afterAttrs ∧
        name ∈ scopeAttrNames beforeAttrs scope ++ scopeAttrNames afterAttrs scope ∧
        resolvedAttrCluster beforeAttrs scope name ≠
          resolvedAttrCluster afterAttrs scope name ∧
        r = { fromCluster := some { activeClusterName := resolvedAttrCluster beforeAttrs scope name,
                                    failoverVersion := resolvedAttrVersion beforeAttrs scope name },
              toCluster := some { activeClusterName := resolvedAttrCluster afterAttrs scope name,
                                  failoverVersion := resolvedAttrVersion afterAttrs scope name },
              clusterAttribute := some { scope := scope, name := name },
              isDefaultCluster := some false } :=
  mem_computeClusterAttributeChanges

/-- C2: with at least one replication config present, the differ emits exactly
one `IsDefaultCluster = true` record — with both sides' default cluster names
(empty for an absent side), version 0 and no cluster attribute — precisely when
the two default active-cluster names differ; with both configs absent it
returns the empty list. -/
theorem computeClusterFailovers_default_spec (before after : GetDomainResponse) :
    ((before.replicationConfig = none ∧ after.replicationConfig = none) →
      (ComputeClusterFailovers before after).1 = []) ∧
    ((before.replicationConfig ≠ none ∨ after.replicationConfig ≠ none) →
      ((ComputeClusterFailovers before after).1.filter
          (fun r => decide (r.isDefaultCluster = some true))) =
        (if defaultClusterName before ≠ defaultClusterName after then
          [{ fromCluster := some { activeClusterName := defaultClusterName before,
                                   failoverVersion := 0 },
             toCluster := some { activeClusterName := defaultClusterName after,
                                 failoverVersion := 0 },
             clusterAttribute := none,
             isDefaultCluster := some true }]
        else [])) := by
  constructor
  · intro h
    simp [ComputeClusterFailovers, h.1, h.2]
  · intro h
    have hcond : ¬(before.replicationConfig = none ∧ after.replicationConfig = none) := by
      tauto
    have hattr : (computeClusterAttributeChanges (snapshotAttrs before)
        (snapshotAttrs after)).filter
        (fun r => decide (r.isDefaultCluster = some true)) = [] := by
      rw [List.filter_eq_nil_iff]
      intro r hr
      simp [isDefault_false_of_mem_attrChanges hr]
    by_cases hne : defaultClusterName before ≠ defaultClusterName after
    · simp [ComputeClusterFailovers, hcond, hne, List.filter_append, hattr]
    · simp [ComputeClusterFailovers, hcond, hne, List.filter_append, hattr]

/-- C2 witness: the differ evaluated on a config-less pair and on a concrete
mixed change whose default cluster moves from `cluster1` to `cluster2`. -/
theorem computeClusterFailovers_default_spec_witness :
    (ComputeClusterFailovers
        { info := none, config := none, replicationConfig := none }
        { info := none, config := none, replicationConfig := none }).1 = [] ∧
      ((ComputeClusterFailovers attrChangeBefore mixedChangeAfter).1.filter
          (fun r => decide (r.isDefaultCluster = some true))) =
        [{ fromCluster := some { activeClusterName := "cluster1",
                                 failoverVersion := 0 },
           toCluster := some { activeClusterName := "cluster2",
                               failoverVersion := 0 },
           clusterAttribute := none,
           isDefaultCluster := some true }] := by
  constructor
  · exact (computeClusterFailovers_default_spec
      { info := none, config := none, replicationConfig := none }
      { info := none, config := none, replicationConfig := none }).1 ⟨rfl, rfl⟩
  · rw [(computeClusterFailovers_default_spec attrChangeBefore
      mixedChangeAfter).2 (Or.inl (by decide))]
    decide

/-- C10: the change summary's changed-fields list is a duplicate-free sub-list
of `["ActiveClusterName", "ActiveClusters"]`; `"ActiveClusterName"` is present
exactly when `DefaultClusterChanged` holds, and `"ActiveClusters"` exactly when
the changed-attribute list is non-empty. -/
theorem changeSummary_changedFields_spec (before after : GetDomainResponse) :
    ((ComputeChangeSummary before after).1.changedFields).Sublist
        ["ActiveClusterName", "ActiveClusters"] ∧
      ((ComputeChangeSummary before after).1.changedFields).Nodup ∧
      ("ActiveClusterName" ∈ (ComputeChangeSummary before after).1.changedFields ↔
        (ComputeChangeSummary before after).1.defaultClusterChanged = true) ∧
      ("ActiveClusters" ∈ (ComputeChangeSummary before after).1.changedFields ↔
        (ComputeChangeSummary before after).1.clusterAttributesChanged ≠ []) := by
  simp only [ComputeChangeSummary]
  rcases hb : before.replicationConfig with _ | brc
  · simp
  rcases ha : after.replicationConfig with _ | arc
  · simp
  by_cases hname : brc.activeClusterName ≠ arc.activeClusterName <;>
    by_cases hattrs :
        compareClusterAttributes brc.activeClusters arc.activeClusters ≠ [] <;>
      simp [hname, hattrs]

/-- C4: the change summary records a ref exactly for the (scope, name) pairs
whose owning cluster resolves on both sides with differing names — a pair
present on only one side is never reported — and `"ActiveClusters"` joins the
changed-fields list exactly when at least one such ref was found. -/
theorem computeChangeSummary_attr_spec (before after : GetDomainResponse)
    (hwf : SnapshotWF after) :
    (∀ ref : ClusterAttributeRef,
      ref ∈ (ComputeChangeSummary before after).1.clusterAttributesChanged ↔
        ∃ binfo ainfo,
          snapshotAttrInfo before ref.scope ref.name = some binfo ∧
          snapshotAttrInfo after ref.scope ref.name = some ainfo ∧
          binfo.activeClusterName ≠ ainfo.activeClusterName) ∧
      ("ActiveClusters" ∈ (ComputeChangeSummary before after).1.changedFields ↔
        (ComputeChangeSummary before after).1.clusterAttributesChanged ≠ []) := by
  constructor
  · intro ref
    rcases changeSummary_attrs before after with heq | ⟨hnone, hempty⟩
    · rw [heq, mem_compareClusterAttributes hwf]
      simp [snapshotAttrInfo]
    · rw [hempty]
      simp only [List.not_mem_nil, false_iff]
      rintro ⟨binfo, ainfo, hb, ha, -⟩
      rcases hnone with h | h
      · rw [snapshotAttrInfo_of_rc_none h] at hb
        exact Option.noConfusion hb
      · rw [snapshotAttrInfo_of_rc_none h] at ha
        exact Option.noConfusion ha
  · exact activeClusters_mem_changedFields before after

/-- C4 witness: the characterization evaluated on a concrete attribute-only
change. -/
theorem computeChangeSummary_attr_spec_witness :
    ({ scope := "region", name := "attr" } : ClusterAttributeRef) ∈
        (ComputeChangeSummary attrChangeBefore attrChangeAfter).1.clusterAttributesChanged ↔
      ∃ binfo ainfo,
        snapshotAttrInfo attrChangeBefore "region" "attr" = some binfo ∧
        snapshotAttrInfo attrChangeAfter "region" "attr" = some ainfo ∧
        binfo.activeClusterName ≠ ainfo.activeClusterName :=
  (computeChangeSummary_attr_spec attrChangeBefore attrChangeAfter (by decide)).1
    { scope := "region", name := "attr" }

/-- C5 counterexample: an attribute present in a both-present scope whose
value (the `ActiveClusterInfo` pair) differs — version 100 versus 200 under
the same owning cluster — is omitted from the change summary, so the claim as
stated fails on the code. -/
theorem changeSummary_invariant_counterexample :
    snapshotAttrInfo attrChangeBefore "region" "attr" =
        some { activeClusterName := "cluster1", failoverVersion := 100 } ∧
      snapshotAttrInfo versionOnlyAfter "region" "attr" =
        some { activeClusterName := "cluster1", failoverVersion := 200 } ∧
      ({ activeClusterName := "cluster1", failoverVersion := 100 } : ActiveClusterInfo) ≠
        { activeClusterName := "cluster1", failoverVersion := 200 } ∧
      ({ scope := "region", name := "attr" } : ClusterAttributeRef) ∉
        (ComputeChangeSummary attrChangeBefore versionOnlyAfter).1.clusterAttributesChanged := by
  decide

/-- C5 amended: when both replication configs are present, the summary never
reports `DefaultClusterChanged = false` while the default cluster names
differ; and it never omits an attribute that resolves on both sides (in a
scope present on both sides) whose owning-cluster *name* differs. -/
theorem changeSummary_invariant_amended (before after : GetDomainResponse) :
    (∀ brc arc, before.replicationConfig = some brc →
        after.replicationConfig = some arc →
        brc.activeClusterName ≠ arc.activeClusterName →
        (ComputeChangeSummary before after).1.defaultClusterChanged = true) ∧
      (∀ scope name binfo ainfo,
        snapshotAttrInfo before scope name = some binfo →
        snapshotAttrInfo after scope name = some ainfo →
        binfo.activeClusterName ≠ ainfo.activeClusterName →
        ({ scope := scope, name := name } : ClusterAttributeRef) ∈
          (ComputeChangeSummary before after).1.clusterAttributesChanged) := by
  constructor
  · intro brc arc hb ha hne
    simp only [ComputeChangeSummary, hb, ha, if_pos hne]
    by_cases hattrs :
        compareClusterAttributes brc.activeClusters arc.activeClusters ≠ [] <;>
      simp [hattrs]
  · intro scope name binfo ainfo hb ha hne
    rcases changeSummary_attrs before after with heq | ⟨hnone, -⟩
    · rw [heq]
      exact mem_compareClusterAttributes_of hb ha hne
    · rcases hnone with h | h
      · rw [snapshotAttrInfo_of_rc_none h] at hb
        exact absurd hb (Option.noConfusion ·)
      · rw [snapshotAttrInfo_of_rc_none h] at ha
        exact absurd ha (Option.noConfusion ·)

/-- C5 witness: the amended invariant evaluated on a concrete mixed change
(default cluster and attribute owner both change). -/
theorem changeSummary_invariant_amended_witness :
    (ComputeChangeSummary attrChangeBefore mixedChangeAfter).1.defaultClusterChanged = true ∧
      ({ scope := "region", name := "attr" } : ClusterAttributeRef) ∈
        (ComputeChangeSummary attrChangeBefore mixedChangeAfter).1.clusterAttributesChanged :=
  ⟨(changeSummary_invariant_amended attrChangeBefore mixedChangeAfter).1
      _ _ rfl rfl (by decide),
    (changeSummary_invariant_amended attrChangeBefore mixedChangeAfter).2
      "region" "attr"
      { activeClusterName := "cluster1", failoverVersion := 100 }
      { activeClusterName := "cluster2", failoverVersion := 101 }
      (by decide) (by decide) (by decide)⟩

/-- C8: the summarizer always returns a nil error; it returns the empty
summary whenever either snapshot lacks a replication config, and on two
identical well-formed snapshots. -/
theorem computeChangeSummary_total_spec (before after s : GetDomainResponse)
    (hwf : SnapshotWF s) :
    (ComputeChangeSummary before after).2 = none ∧
      ((before.replicationConfig = none ∨ after.replicationConfig = none) →
        (ComputeChangeSummary before after).1 =
          { changedFields := [], defaultClusterChanged := false,
            clusterAttributesChanged := [] }) ∧
      (ComputeChangeSummary s s).1 =
        { changedFields := [], defaultClusterChanged := false,
          clusterAttributesChanged := [] } := by
  refine ⟨?_, ?_, ?_⟩
  · simp only [ComputeChangeSummary]
    rcases before.replicationConfig with _ | brc <;>
      rcases after.replicationConfig with _ | arc <;> simp
  · rintro (h | h)
    · simp [ComputeChangeSummary, h]
    · simp only [ComputeChangeSummary, h]
      rcases hb : before.replicationConfig with _ | brc <;> simp [hb]
  · rcases hs : s.replicationConfig with _ | rc
    · simp [ComputeChangeSummary, hs]
    · have hwf' : ActiveClustersWF rc.activeClusters := by
        have : snapshotAttrs s = rc.activeClusters := by
          simp [snapshotAttrs, hs]
        rw [SnapshotWF, this] at hwf
        exact hwf
      have hattr :
          compareClusterAttributes rc.activeClusters rc.activeClusters = [] := by
        rw [List.eq_nil_iff_forall_not_mem]
        intro ref hmem
        obtain ⟨binfo, ainfo, hbi, hai, hne⟩ :=
          (mem_compareClusterAttributes hwf').mp hmem
        rw [hbi] at hai
        exact hne (by injection hai with h; rw [h])
      simp [ComputeChangeSummary, hs, hattr]

/-- C8 witness: the summarizer evaluated at a config-less snapshot pair and at
an identical well-formed snapshot pair. -/
theorem computeChangeSummary_total_spec_witness :
    (ComputeChangeSummary { info := none, config := none, replicationConfig := none }
        attrChangeBefore).2 = none ∧
      (ComputeChangeSummary { info := none, config := none, replicationConfig := none }
          attrChangeBefore).1 =
        { changedFields := [], defaultClusterChanged := false,
          clusterAttributesChanged := [] } ∧
      (ComputeChangeSummary attrChangeBefore attrChangeBefore).1 =
        { changedFields := [], defaultClusterChanged := false,
          clusterAttributesChanged := [] } :=
  have h := computeChangeSummary_total_spec
    { info := none, config := none, replicationConfig := none }
    attrChangeBefore attrChangeBefore (by decide)
  ⟨h.1, h.2.1 (Or.inl rfl), h.2.2⟩

/-- C3: decoding an encoded snapshot succeeds and returns the snapshot itself
— structural equality, which subsumes field-wise value equality and makes the
ordering of nested mapping keys irrelevant. -/
theorem decompress_serialize_roundTrip (domain : GetDomainResponse) :
    DecompressAndDeserialize (SerializeAndCompress domain) = some domain := by
  simp [SerializeAndCompress, DecompressAndDeserialize, snappyDecode_enc,
    jsonUnmarshal_marshal]

/-- C9: decoding fails exactly when decompression rejects the bytes or the
decompressed payload does not unmarshal to the snapshot shape; in particular
any valid compression of a non-unmarshallable payload fails. -/
theorem decompressDeserialize_error_spec (compressed : List Nat) :
    (DecompressAndDeserialize compressed = none ↔
      snappyDecode compressed = none ∨
        ∃ payload, snappyDecode compressed = some payload ∧
          jsonUnmarshal payload = none) ∧
      (∀ payload, jsonUnmarshal payload = none →
        DecompressAndDeserialize (snappyEncode payload) = none) := by
  constructor
  · rcases h : snappyDecode compressed with _ | payload <;>
      simp [DecompressAndDeserialize, h]
  · intro payload hp
    simp [DecompressAndDeserialize, snappyDecode_enc, hp]

/-- C9 witness: non-compressed garbage bytes fail, and a valid compression of
a non-unmarshallable payload fails. -/
theorem decompressDeserialize_error_spec_witness :
    DecompressAndDeserialize [0] = none ∧
      DecompressAndDeserialize (snappyEncode [99]) = none :=
  ⟨(decompressDeserialize_error_spec [0]).1.mpr (Or.inl (by decide)),
    (decompressDeserialize_error_spec (snappyEncode [99])).2 [99] (by decide)⟩

/-- C6: the filter predicate fails open on an unparsable summary; on a parsed
summary it excludes when the default-cluster-only filter is set but no default
change is recorded, includes under non-empty attribute filters only when some
requested pair exactly matches a changed ref, and includes when no filter of
either kind is given. -/
theorem shouldIncludeEvent_spec (summaryBytes : List Nat)
    (filters : ListFailoverHistoryRequestFilters) :
    (summaryUnmarshal summaryBytes = none →
      shouldIncludeEvent summaryBytes filters = true) ∧
      (∀ summary, summaryUnmarshal summaryBytes = some summary →
        ((filters.defaultActiveCluster = some true ∧
            summary.defaultClusterChanged = false) →
          shouldIncludeEvent summaryBytes filters = false) ∧
        (filters.attributes ≠ [] →
          shouldIncludeEvent summaryBytes filters = true →
          ∃ ca, some ca ∈ filters.attributes ∧
            ∃ chg ∈ summary.clusterAttributesChanged,
              ca.scope = chg.scope ∧ ca.name = chg.name) ∧
        ((filters.defaultActiveCluster ≠ some true ∧ filters.attributes = []) →
          shouldIncludeEvent summaryBytes filters = true)) := by
  constructor
  · intro h
    simp [shouldIncludeEvent, h]
  · intro summary hs
    refine ⟨?_, ?_, ?_⟩
    · rintro ⟨h₁, h₂⟩
      simp [shouldIncludeEvent, hs, h₁, h₂]
    · intro hne htrue
      simp only [shouldIncludeEvent, hs] at htrue
      by_cases hc₁ : filters.defaultActiveCluster = some true ∧
          summary.defaultClusterChanged = false
      · simp [hc₁] at htrue
      · rw [if_neg hc₁] at htrue
        have hlen : 0 < filters.attributes.length := List.length_pos.mpr hne
        by_cases hm : matchesAttributeFilter summary.clusterAttributesChanged
            filters.attributes = false
        · rw [if_pos ⟨hlen, hm⟩] at htrue
          exact absurd htrue (by simp)
        · have hm' : matchesAttributeFilter summary.clusterAttributesChanged
              filters.attributes = true := by
            revert hm
            cases matchesAttributeFilter summary.clusterAttributesChanged
              filters.attributes <;> simp
          simp only [matchesAttributeFilter] at hm'
          by_cases hz : summary.clusterAttributesChanged.length = 0
          · rw [if_pos hz] at hm'
            exact absurd hm' (by simp)
          · rw [if_neg hz, List.any_eq_true] at hm'
            obtain ⟨req, hreq, hmatch⟩ := hm'
            rcases req with _ | ca
            · exact absurd hmatch (by simp)
            · rw [List.any_eq_true] at hmatch
              obtain ⟨chg, hchg, heq⟩ := hmatch
              rw [Bool.and_eq_true, beq_iff_eq, beq_iff_eq] at heq
              exact ⟨ca, hreq, chg, hchg, heq.1.symm, heq.2.symm⟩
    · rintro ⟨h₁, h₂⟩
      have hc₁ : ¬(filters.defaultActiveCluster = some true ∧
          summary.defaultClusterChanged = false) := fun hc => h₁ hc.1
      simp [shouldIncludeEvent, hs, hc₁, h₂]

/-- C6 witness: the predicate evaluated on unparsable bytes, on a quiet
summary under the default-cluster-only filter, on a matching attribute
filter, and with no filters. -/
theorem shouldIncludeEvent_spec_witness :
    shouldIncludeEvent [2]
        { defaultActiveCluster := some true, attributes := [] } = true ∧
      shouldIncludeEvent (encChangeSummary quietSummary)
        { defaultActiveCluster := some true, attributes := [] } = false ∧
      (∃ ca, some ca ∈ [some ({ scope := "region", name := "attr" } : ClusterAttribute)] ∧
        ∃ chg ∈ sampleSummary.clusterAttributesChanged,
          ca.scope = chg.scope ∧ ca.name = chg.name) ∧
      shouldIncludeEvent (encChangeSummary sampleSummary)
        { defaultActiveCluster := none, attributes := [] } = true :=
  ⟨(shouldIncludeEvent_spec [2]
        { defaultActiveCluster := some true, attributes := [] }).1 (by decide),
    ((shouldIncludeEvent_spec (encChangeSummary quietSummary)
        { defaultActiveCluster := some true, attributes := [] }).2 quietSummary
      (summaryUnmarshal_enc quietSummary)).1 ⟨rfl, rfl⟩,
    ((shouldIncludeEvent_spec (encChangeSummary sampleSummary)
        { defaultActiveCluster := none,
          attributes := [some { scope := "region", name := "attr" }] }).2 sampleSummary
      (summaryUnmarshal_enc sampleSummary)).2.1 (by decide) (by decide),
    ((shouldIncludeEvent_spec (encChangeSummary sampleSummary)
        { defaultActiveCluster := none, attributes := [] }).2 sampleSummary
      (summaryUnmarshal_enc sampleSummary)).2.2 ⟨by decide, rfl⟩⟩

/-- C7: the get path returns an empty response for a nil storage response and
for a response carrying a nil entry, and an internal error when a present
payload fails to decompress. -/
theorem getFailoverEvent_missing_spec
    (entryResp : Option (Option DomainAuditLogEntry)) :
    (entryResp = none →
      GetFailoverEvent entryResp = .ok { clusterFailovers := [] }) ∧
      (entryResp = some none →
        GetFailoverEvent entryResp = .ok { clusterFailovers := [] }) ∧
      (∀ entry, entryResp = some (some entry) →
        (DecompressAndDeserialize entry.stateBefore = none ∨
          DecompressAndDeserialize entry.stateAfter = none) →
        GetFailoverEvent entryResp =
          .error (.internalService "Failed to decompress domain state")) := by
  refine ⟨fun h => by rw [h]; rfl, fun h => by rw [h]; rfl, ?_⟩
  intro entry h hfail
  subst h
  rcases hb : DecompressAndDeserialize entry.stateBefore with _ | before
  · simp [GetFailoverEvent, hb]
  · rcases hfail with hf | hf
    · rw [hb] at hf
      exact absurd hf (by simp)
    · simp [GetFailoverEvent, hb, hf]

/-- C7 witness: the get path evaluated on a nil response, a nil entry, and an
entry whose payload bytes are not valid compressed output. -/
theorem getFailoverEvent_missing_spec_witness :
    GetFailoverEvent none = .ok { clusterFailovers := [] } ∧
      GetFailoverEvent (some none) = .ok { clusterFailovers := [] } ∧
      GetFailoverEvent (some (some { stateBefore := [], stateAfter := [] })) =
        .error (.internalService "Failed to decompress domain state") :=
  ⟨(getFailoverEvent_missing_spec none).1 rfl,
    (getFailoverEvent_missing_spec (some none)).2.1 rfl,
    (getFailoverEvent_missing_spec
        (some (some { stateBefore := [], stateAfter := [] }))).2.2 _ rfl
      (Or.inl rfl)⟩

end Cadence
